import Mathlib

/-!
Shallow embedding of the core of the `chamber` repository
(VM supervisor, Tart control-plane client, SSH connection waiter,
interactive terminal proxy) together with proofs about the
natural-language specification's claims.

Source files embedded:
  * internal/vm/tart (VM handle lifecycle and the `tart` subprocess client)
  * internal/ssh (terminal proxy and SSH connection waiter)
  * internal/commands (directory-mount parsing and orchestration)
-/

namespace Chamber

/-- Go's `strings.Split(s, sep)` for a single-character separator,
modelled on the character list of the string.  `strings.Split("", sep)`
returns a one-element slice holding the empty string, which is why the
base case is `[[]]`. -/
def splitChar (sep : Char) : List Char → List (List Char)
  | [] => [[]]
  | c :: cs =>
    match splitChar sep cs with
    | [] => [[]]
    | group :: rest =>
      if c = sep then [] :: group :: rest else (c :: group) :: rest

namespace Tart

/-- Embedding of `DirectoryMount` from internal/vm/tart/vm.go. -/
structure DirectoryMount where
  name : String
  path : String
  tag : String
  readOnly : Bool
deriving Repr, DecidableEq

/-- The `vmNamePrefix` constant from internal/vm/tart/vm.go
(the fixed stem of every ephemeral VM name). -/
def vmNameStem : String := "chamber-ephemeral-"

/-- The `tartCommandName` constant from internal/vm/tart. -/
def tartCommandName : String := "tart"

/-- Outcome of spawning the external `tart` binary (the external
collaborator behind `exec.CommandContext`): either the binary is not on
the PATH (`exec.ErrNotFound`), or it ran and exited with a status code
while producing the captured stdout and stderr, or running failed for
some other reason (e.g. the context was cancelled). -/
inductive ProcResult where
  | notFound
  | exited (exitCode : Nat) (stdout stderr : String)
  | otherFailure (stdout stderr : String) (msg : String)
deriving Repr, DecidableEq

/-- The error classification produced by `Cmd` in internal/vm/tart:
`ErrTartNotFound` and `ErrTartFailed` are distinct sentinel errors; any
other spawn failure is passed through unchanged. -/
inductive TartError where
  | tartNotFound (msg : String)
  | tartFailed (msg : String)
  | passthrough (msg : String)
deriving Repr, DecidableEq

/-- Embedding of `firstNonEmptyLine(outputs ...string)` from internal/vm/tart:
for each output in order, split it on newlines and return the first
non-empty line; return `""` when every line of every output is empty. -/
def firstNonEmptyLine : List String → String
  | [] => ""
  | output :: rest =>
    match (splitChar '\n' output.data).find? (fun line => !line.isEmpty) with
    | some line => String.mk line
    | none => firstNonEmptyLine rest

/-- The message attached to `ErrTartNotFound` by `Cmd`. -/
def notFoundMsg : String :=
  tartCommandName ++ " command not found in PATH, make sure Tart is installed"

/-- Embedding of `Cmd(ctx, additionalEnvironment, name, args...)` from
internal/vm/tart, restricted to its observable result: it returns the
captured stdout, the captured stderr, and the classified error
(`none` on a zero exit).  A missing binary yields `ErrTartNotFound`
with empty captures; a non-zero exit yields `ErrTartFailed` carrying
the first non-empty line of stderr-then-stdout; any other failure is
returned unchanged. -/
def Cmd (res : ProcResult) : String × String × Option TartError :=
  match res with
  | .notFound => ("", "", some (.tartNotFound notFoundMsg))
  | .exited exitCode stdout stderr =>
    if exitCode = 0 then
      (stdout, stderr, none)
    else
      (stdout, stderr, some (.tartFailed (firstNonEmptyLine [stderr, stdout])))
  | .otherFailure stdout stderr msg =>
    (stdout, stderr, some (.passthrough msg))

/-- The options clause built for one directory mount inside `VM.Start`:
`tag=<tag>` when the tag is non-empty, then `ro` when the mount is
read-only. -/
def mountOpts (dm : DirectoryMount) : List String :=
  (if dm.tag ≠ "" then ["tag=" ++ dm.tag] else []) ++
    (if dm.readOnly then ["ro"] else [])

/-- Go's `strings.Join(elems, sep)`: the elements concatenated with the
separator between consecutive elements. -/
def stringsJoin (sep : String) : List String → String
  | [] => ""
  | [s] => s
  | s :: rest => s ++ sep ++ stringsJoin sep rest

/-- The `dirArgumentValue` string as computed by the loop body of `VM.Start`:
`name:path`, followed by `:` and the comma-joined options clause when
any options are present. -/
def dirArgumentValue (dm : DirectoryMount) : String :=
  let base := dm.name ++ ":" ++ dm.path
  if (mountOpts dm).length ≠ 0 then
    base ++ ":" ++ stringsJoin "," (mountOpts dm)
  else
    base

/-- The argument list `VM.Start` passes to the control plane's `run`
verb: the three fixed flags, then `--dir <value>` per mount in
caller-supplied order, then the VM identifier. -/
def startRunArgs (ident : String) (directoryMounts : List DirectoryMount) :
    List String :=
  (directoryMounts.foldl (fun args dm => args ++ ["--dir", dirArgumentValue dm])
    ["--no-graphics", "--no-clipboard", "--no-audio"]) ++ [ident]

/-- Spec-side serialization of one directory mount, written from the
specification's words for comparison with the source-derived
`dirArgumentValue`: one `--dir` value of the form `name:hostPath`
followed by a colon and a comma-joined options clause containing
`tag=<tag>` when the tag is non-empty and `ro` when read-only, and no
trailing clause when the tag is empty and the mount is writable. -/
def specMountSerialization (dm : DirectoryMount) : String :=
  if dm.tag = "" then
    if dm.readOnly then
      dm.name ++ ":" ++ dm.path ++ ":ro"
    else
      dm.name ++ ":" ++ dm.path
  else
    if dm.readOnly then
      dm.name ++ ":" ++ dm.path ++ ":tag=" ++ dm.tag ++ ",ro"
    else
      dm.name ++ ":" ++ dm.path ++ ":tag=" ++ dm.tag

/-- A Go `time.Time` instant as far as the VM-name generation observes
it: the calendar fields used by the layout `"20060102-150405"` plus the
sub-second component that the layout discards. -/
structure GoTime where
  year : Nat
  month : Nat
  day : Nat
  hour : Nat
  minute : Nat
  second : Nat
  nanosecond : Nat
deriving Repr, DecidableEq

/-- Two decimal digits with zero padding, as Go's `"01"`-style layout
fields render calendar components (all of which are below 100). -/
def pad2 (n : Nat) : List Char :=
  [Nat.digitChar (n / 10 % 10), Nat.digitChar (n % 10)]

/-- Four decimal digits with zero padding, as Go's `"2006"` layout
field renders the year (years in range are below 10000). -/
def pad4 (n : Nat) : List Char :=
  [Nat.digitChar (n / 1000 % 10), Nat.digitChar (n / 100 % 10),
    Nat.digitChar (n / 10 % 10), Nat.digitChar (n % 10)]

/-- Embedding of `time.Now().Format("20060102-150405")` from `NewVMClonedFrom`:
year, month, day, a dash, then hour, minute, second — all zero-padded,
second resolution (the nanosecond field does not appear in the
layout). -/
def formatTimestamp (t : GoTime) : String :=
  String.mk (pad4 t.year ++ pad2 t.month ++ pad2 t.day ++ ['-'] ++
    pad2 t.hour ++ pad2 t.minute ++ pad2 t.second)

/-- The identity `NewVMClonedFrom` assigns to a freshly cloned VM:
the fixed stem followed by the creation timestamp. -/
def newVMIdent (now : GoTime) : String :=
  vmNameStem ++ formatTimestamp now

/-- The calendar fields of an instant at second resolution — exactly
the information the VM-name layout renders. -/
def secondTuple (t : GoTime) : Nat × Nat × Nat × Nat × Nat × Nat :=
  (t.year, t.month, t.day, t.hour, t.minute, t.second)

/-- Bounds every instant produced by `time.Now()` satisfies: the year
has at most four digits and every other calendar field at most two,
so the zero-padded layout renders each field at its full width. -/
def validTime (t : GoTime) : Prop :=
  t.year < 10000 ∧ t.month < 100 ∧ t.day < 100 ∧
    t.hour < 100 ∧ t.minute < 100 ∧ t.second < 100

/-- Numeric value of a decimal digit character. -/
def digitVal (c : Char) : Nat := c.toNat - 48

/-- Inverse of the `"20060102-150405"` layout on well-formed character
lists: reads the six calendar fields back from their fixed positions. -/
def unformatTS (l : List Char) : Nat × Nat × Nat × Nat × Nat × Nat :=
  match l with
  | [y3, y2, y1, y0, m1, m0, d1, d0, _, h1, h0, mi1, mi0, s1, s0] =>
    (1000 * digitVal y3 + 100 * digitVal y2 + 10 * digitVal y1 + digitVal y0,
      10 * digitVal m1 + digitVal m0,
      10 * digitVal d1 + digitVal d0,
      10 * digitVal h1 + digitVal h0,
      10 * digitVal mi1 + digitVal mi0,
      10 * digitVal s1 + digitVal s0)
  | _ => (0, 0, 0, 0, 0, 0)

/-- The state of the Go runtime objects owned by one `VM` handle:
its immutable identity and base image, whether `runningVMCtxCancel`
has been invoked, whether the supervisor goroutine launched by `Start`
is still live (the `sync.WaitGroup` counter is non-zero), and the
buffered contents of the capacity-1 `errChan`. -/
structure VMState where
  ident : String
  baseImage : String
  ctxCancelled : Bool
  supervisorActive : Bool
  errChanContents : List (Option TartError)
deriving Repr, DecidableEq

/-- Externally visible events a VM-handle operation performs, in
program order: a control-plane subprocess invocation, the cancellation
of the supervisor context, and the return of `wg.Wait()` (the join on
the supervisor goroutine). -/
inductive VMEvent where
  | tartCmd (verb : String) (args : List String)
  | cancelRunCtx
  | waitJoin
deriving Repr, DecidableEq

/-- Embedding of `NewVMClonedFrom(ctx, from, env)`: generate the timestamped
identity, then invoke `clone <from> <ident>`; on a clone failure the
handle is not returned.  `cloneErr` is the classified result of that
control-plane invocation. -/
def NewVMClonedFrom (now : GoTime) (cloneErr : Option TartError)
    (srcImage : String) : Option VMState × List VMEvent :=
  let ident := newVMIdent now
  match cloneErr with
  | some _ => (none, [VMEvent.tartCmd "clone" [srcImage, ident]])
  | none =>
    (some { ident := ident, baseImage := srcImage, ctxCancelled := false,
            supervisorActive := false, errChanContents := [] },
      [VMEvent.tartCmd "clone" [srcImage, ident]])

/-- Embedding of `VM.Configure(ctx, cpu, memory)`: issues `set --random-mac`, then
`set --cpu` when `cpu ≠ 0`, then `set --memory` when `memory ≠ 0`,
propagating the first failure; the handle itself is never mutated.
`macErr`, `cpuErr` and `memErr` are the classified results of the three
possible control-plane invocations. -/
def Configure (macErr cpuErr memErr : Option TartError)
    (cpu memory : Nat) (vm : VMState) :
    VMState × Option TartError :=
  match macErr with
  | some e => (vm, some e)
  | none =>
    if cpu ≠ 0 then
      match cpuErr with
      | some e => (vm, some e)
      | none =>
        if memory ≠ 0 then (vm, memErr) else (vm, none)
    else
      if memory ≠ 0 then (vm, memErr) else (vm, none)

/-- Embedding of `VM.Start(ctx, directoryMounts)`: `wg.Add(1)` and launch the
supervisor goroutine that runs the control plane's `run` verb with
`startRunArgs`; `Start` itself returns immediately without blocking and
without touching any other field of the handle. -/
def Start (vm : VMState) : VMState :=
  { vm with supervisorActive := true }

/-- The supervisor goroutine winding down after its `run` subprocess
terminates: it sends the subprocess's result on the capacity-1
`errChan` and then `wg.Done()` marks the goroutine finished.  On a
handle whose supervisor is not live this is the identity (there is
nothing to join). -/
def joinSupervisor (runErr : Option TartError) (vm : VMState) : VMState :=
  if vm.supervisorActive then
    { vm with supervisorActive := false,
              errChanContents := vm.errChanContents ++ [runErr] }
  else
    vm

/-- Embedding of `VM.StopWithContext(ctx)`: issue a graceful `stop --timeout 5`
whose result is discarded, cancel the supervisor context, then block in
`wg.Wait()` until the supervisor goroutine (if any) has exited; always
return `nil`.  `gracefulStopErr` is the (discarded) result of the stop
invocation and `runErr` the terminal result the supervisor delivers
while being joined.  The returned triple is the updated handle, the
events in program order, and the returned error. -/
def StopWithContext (_gracefulStopErr runErr : Option TartError)
    (vm : VMState) : VMState × List VMEvent × Option TartError :=
  let stopEvent := VMEvent.tartCmd "stop" ["--timeout", "5", vm.ident]
  let vmCancelled : VMState := { vm with ctxCancelled := true }
  let vmJoined := joinSupervisor runErr vmCancelled
  (vmJoined, [stopEvent, VMEvent.cancelRunCtx, VMEvent.waitJoin], none)

/-- Embedding of `VM.Stop()`, which delegates to `StopWithContext` with a background
context. -/
def Stop (gracefulStopErr runErr : Option TartError) (vm : VMState) :
    VMState × List VMEvent × Option TartError :=
  StopWithContext gracefulStopErr runErr vm

/-- Embedding of `VM.Delete()`: invoke the control plane's `delete` verb and return
its result unchanged; the handle is not mutated.  `deleteErr` is the
classified result of that invocation. -/
def Delete (deleteErr : Option TartError) (vm : VMState) :
    VMState × List VMEvent × Option TartError :=
  (vm, [VMEvent.tartCmd "delete" [vm.ident]], deleteErr)

/-- Embedding of `VM.Close()`: `Stop`, short-circuiting on a non-nil stop error,
then `Delete`, surfacing the delete result. -/
def Close (gracefulStopErr runErr deleteErr : Option TartError)
    (vm : VMState) : VMState × List VMEvent × Option TartError :=
  let stopped := Stop gracefulStopErr runErr vm
  match stopped.2.2 with
  | some e => (stopped.1, stopped.2.1, some e)
  | none =>
    let deleted := Delete deleteErr stopped.1
    (deleted.1, stopped.2.1 ++ deleted.2.1, deleted.2.2)

end Tart

namespace SSH

/-! ## Terminal proxy (internal/ssh/terminal.go) -/

/-- Results of the external calls `RunInteractiveCommand` makes, in
program order, plus the position (if any) at which a fault is raised
inside the body after raw mode was entered.  The eight fault positions
sit before each external call of the body and after the final explicit
restore. -/
structure TermEnv where
  newSessionOk : Bool
  isTerminal : Bool
  makeRawOk : Bool
  getSizeOk : Bool
  requestPtyOk : Bool
  stdinPipeOk : Bool
  stdoutPipeOk : Bool
  stderrPipeOk : Bool
  startOk : Bool
  waitErr : Bool
  panicAt : Option (Fin 8)
deriving Repr, DecidableEq

/-- How one call to `RunInteractiveCommand` ends: a normal return
(`ok`), an error return with the wrapped message stem, the
non-interactive fallback (carrying whether `session.Run` failed), or a
fault propagating out of the call. -/
inductive Outcome where
  | ok
  | error (msg : String)
  | nonInteractive (runFailed : Bool)
  | panicked
deriving Repr, DecidableEq

/-- The `restore` closure of `RunInteractiveCommand`: `term.Restore`
executes only while the `restored` guard is still false, and the guard
is then set.  The state is the guard paired with the count of actual
`term.Restore` executions. -/
def runRestore : Bool × Nat → Bool × Nat
  | (restored, n) => if restored then (restored, n) else (true, n + 1)

/-- How the body of `RunInteractiveCommand` after raw mode exits:
by returning a value or by a propagating fault. -/
inductive BodyExit where
  | ret (out : Outcome)
  | panicked
deriving Repr, DecidableEq

/-- The body of `RunInteractiveCommand` from the point where raw mode
has been entered: size lookup, PTY request, the three pipe creations,
command start, then `session.Wait`, the cancel of the shared scope,
the join of the three copiers, and the explicit `restore()` call.
Threads the restore guard state; a fault position from the environment
aborts the body at that point. -/
def bodyAfterRaw (env : TermEnv) (st : Bool × Nat) : BodyExit × (Bool × Nat) :=
  if env.panicAt = some 0 then (.panicked, st)
  else if !env.getSizeOk then (.ret (.error "failed to get terminal size"), st)
  else if env.panicAt = some 1 then (.panicked, st)
  else if !env.requestPtyOk then (.ret (.error "failed to request pty"), st)
  else if env.panicAt = some 2 then (.panicked, st)
  else if !env.stdinPipeOk then (.ret (.error "failed to get stdin pipe"), st)
  else if env.panicAt = some 3 then (.panicked, st)
  else if !env.stdoutPipeOk then (.ret (.error "failed to get stdout pipe"), st)
  else if env.panicAt = some 4 then (.panicked, st)
  else if !env.stderrPipeOk then (.ret (.error "failed to get stderr pipe"), st)
  else if env.panicAt = some 5 then (.panicked, st)
  else if !env.startOk then (.ret (.error "failed to start command"), st)
  else if env.panicAt = some 6 then (.panicked, st)
  else if env.panicAt = some 7 then (.panicked, runRestore st)
  else if env.waitErr then (.ret (.error "command failed"), runRestore st)
  else (.ret .ok, runRestore st)

/-- Embedding of `RunInteractiveCommand` with Go's defer semantics unfolded:
session creation, the terminal check, `MakeRaw`, then the body; on a
normal or error return the deferred recover sees no fault and the
deferred `restore` runs; on a fault the recover handler restores and
re-raises, after which the deferred `restore` runs again while the
fault unwinds.  Returns the outcome and the number of times
`term.Restore` actually executed. -/
def runInteractiveCommand (env : TermEnv) : Outcome × Nat :=
  if !env.newSessionOk then (.error "failed to create session", 0)
  else if !env.isTerminal then (.nonInteractive env.waitErr, 0)
  else if !env.makeRawOk then (.error "failed to make terminal raw", 0)
  else
    match bodyAfterRaw env (false, 0) with
    | (.ret out, st) =>
      let st := runRestore st
      (out, st.2)
    | (.panicked, st) =>
      let st := runRestore st
      let st := runRestore st
      (.panicked, st.2)

/-! ## Connection waiter (internal/ssh, `WaitForSSH`) -/

/-- Constant from `retry.Delay(time.Second)`: the fixed delay between attempts. -/
def retryDelaySeconds : Nat := 1

/-- Constant from `context.WithTimeout(ctx, time.Second)`: the child deadline bounding
the TCP dial of each attempt. -/
def dialTimeoutSeconds : Nat := 1

/-- Constant from `ssh.ClientConfig.Timeout = time.Second`: the budget for the
transport handshake of each attempt. -/
def handshakeTimeoutSeconds : Nat := 1

/-- Constant from `retry.Attempts(0)`: no cap on the number of attempts. -/
def retryAttemptCap : Option Nat := none

/-- The retry loop of `WaitForSSH` (`retry.Do` with unlimited attempts,
fixed delay and the caller's context): attempt `n` either succeeds
(`attemptFails n = false`), or the loop sleeps one delay interval
during which the outer context may be observed cancelled
(`cancelAfter n = true`), aborting the retries with the context error;
otherwise the next attempt runs.  `fuel` bounds how many iterations we
unfold: `none` means the loop is still retrying after `fuel`
iterations. -/
def retryLoop (attemptFails : Nat → Bool) (cancelAfter : Nat → Bool) :
    Nat → Nat → Option (Except String Nat)
  | 0, _ => none
  | fuel + 1, n =>
    if !attemptFails n then some (.ok n)
    else if cancelAfter n then some (.error "context canceled")
    else retryLoop attemptFails cancelAfter fuel (n + 1)

/-- The observable result of `WaitForSSH`: a connected client identified by
the attempt that succeeded, or the wrapped error surfaced after the
outer context ended; `none` when the loop is still retrying within the
explored bound. -/
def waitForSSH (attemptFails : Nat → Bool) (cancelAfter : Nat → Bool)
    (fuel : Nat) : Option (Except String Nat) :=
  match retryLoop attemptFails cancelAfter fuel 0 with
  | none => none
  | some (.ok n) => some (.ok n)
  | some (.error e) => some (.error ("failed to connect via SSH: " ++ e))

/-! ## Teardown concurrency of the interactive session
(internal/ssh/terminal.go, lines 98-160)

The main task runs `session.Wait(); cancel(); wg.Wait(); restore()`.
The resize watcher spawned with `go t.handleWindowResize(ctx, ...)`
loops selecting between the cancelled context and a buffered SIGWINCH
channel; it is signalled via `cancel()` but is never added to the
`sync.WaitGroup`, which counts only the three stream copiers. -/

/-- Program counter of the main task through the teardown sequence. -/
inductive MainPC where
  | atWait
  | afterWait
  | afterCancel
  | afterJoin
  | done
deriving Repr, DecidableEq, Fintype

/-- Joint state of the interactive session's concurrent tasks:
whether the remote command has exited, whether the shared scope has
been cancelled, whether the three stream copiers have finished, the
main task's program counter, whether the resize watcher goroutine is
still running, whether a window-change signal is buffered in the
watcher's channel, and a history flag recording that a resize was
forwarded after the remote command had already exited. -/
structure ProxyState where
  commandExited : Bool
  cancelled : Bool
  copiersDone : Bool
  mainPC : MainPC
  watcherAlive : Bool
  pendingSignal : Bool
  forwardedAfterExit : Bool
deriving Repr, DecidableEq

/-- The type `ProxyState` is finite: it is a tuple of six booleans and a
five-element program counter. -/
def proxyStateEquiv :
    (Bool × Bool × Bool × MainPC × Bool × Bool × Bool) ≃ ProxyState where
  toFun x := ⟨x.1, x.2.1, x.2.2.1, x.2.2.2.1, x.2.2.2.2.1,
    x.2.2.2.2.2.1, x.2.2.2.2.2.2⟩
  invFun s := (s.commandExited, s.cancelled, s.copiersDone, s.mainPC,
    s.watcherAlive, s.pendingSignal, s.forwardedAfterExit)
  left_inv _x := rfl
  right_inv _s := rfl

instance : Fintype ProxyState := Fintype.ofEquiv _ proxyStateEquiv

/-- The state at the moment the four tasks are running and the main
task has blocked in `session.Wait()`. -/
def proxyStart : ProxyState :=
  { commandExited := false, cancelled := false, copiersDone := false,
    mainPC := .atWait, watcherAlive := true, pendingSignal := false,
    forwardedAfterExit := false }

/-- Atomic steps of the session: environment events (a SIGWINCH
arrives, the remote command exits, the copiers drain once the remote
side closed), the main task's teardown steps, and the watcher's two
select branches. -/
inductive PAction where
  | sigwinch
  | cmdExit
  | copiersFinish
  | mainWaitRet
  | mainCancel
  | mainJoin
  | mainRestore
  | watcherObserveCancel
  | watcherForward
deriving Repr, DecidableEq, Fintype

/-- One interleaving step: the action fires when its guard holds and
is a no-op otherwise.  `mainWaitRet` needs the command to have exited
(`session.Wait` returns then); `mainJoin` needs the three copiers done
(`wg.Wait`); the watcher's select can take the forward branch whenever
a signal is pending and the watcher is alive — in particular also
after the command exited but before the watcher observes the
cancellation. -/
def proxyStep (s : ProxyState) : PAction → ProxyState
  | .sigwinch => { s with pendingSignal := true }
  | .cmdExit => { s with commandExited := true }
  | .copiersFinish =>
    if s.commandExited then { s with copiersDone := true } else s
  | .mainWaitRet =>
    if s.mainPC = .atWait ∧ s.commandExited then
      { s with mainPC := .afterWait }
    else s
  | .mainCancel =>
    if s.mainPC = .afterWait then
      { s with mainPC := .afterCancel, cancelled := true }
    else s
  | .mainJoin =>
    if s.mainPC = .afterCancel ∧ s.copiersDone then
      { s with mainPC := .afterJoin }
    else s
  | .mainRestore =>
    if s.mainPC = .afterJoin then { s with mainPC := .done } else s
  | .watcherObserveCancel =>
    if s.watcherAlive ∧ s.cancelled then
      { s with watcherAlive := false }
    else s
  | .watcherForward =>
    if s.watcherAlive ∧ s.pendingSignal then
      { s with pendingSignal := false,
               forwardedAfterExit := s.forwardedAfterExit || s.commandExited }
    else s

/-- Execution of a schedule from the streaming state. -/
def runProxy (acts : List PAction) : ProxyState :=
  acts.foldl proxyStep proxyStart

/-- The safety invariant of the teardown: cancellation only after the
command's completion was observed; the main task past `Wait` implies
the command exited; the main task past `cancel()` implies the scope is
cancelled; the main task past `wg.Wait()` implies the copiers are
done; a dead watcher implies the scope was cancelled; and a forwarded
resize after exit implies the command exited. -/
def proxyInv (s : ProxyState) : Bool :=
  (!s.cancelled || s.commandExited) &&
  (s.mainPC == .atWait || s.commandExited) &&
  ((s.mainPC == .atWait || s.mainPC == .afterWait) || s.cancelled) &&
  (!(s.mainPC == .afterJoin || s.mainPC == .done) || s.copiersDone) &&
  (s.watcherAlive || s.cancelled) &&
  (!s.forwardedAfterExit || s.commandExited)

/-- The claim's statement over this model: the shared scope is
cancelled only after the remote command's completion has been
observed; no resize event is ever forwarded after the remote command
has exited (the watcher being already cancelled by then); and when the
main task reaches terminal restoration every concurrent task — the
resize watcher included — has been joined. -/
def interactiveTeardownClaim : Prop :=
  ∀ acts : List PAction,
    ((runProxy acts).cancelled = true → (runProxy acts).commandExited = true) ∧
      (runProxy acts).forwardedAfterExit = false ∧
      ((runProxy acts).mainPC = MainPC.done →
        (runProxy acts).watcherAlive = false)

end SSH

namespace Commands

/-! ## Directory-mount flag parsing (internal/commands/claude.go) -/

/-- The operating-system services `parseDirectoryMounts` consults:
`os.UserHomeDir`, `filepath.Join` (for tilde expansion) and
`filepath.Abs`.  They are external standard-library collaborators, so
their behaviour is a parameter of the embedding. -/
structure OsEnv where
  userHomeDir : Except String String
  filepathJoin : String → String → String
  filepathAbs : String → Except String String

/-- One iteration of the loop in `parseDirectoryMounts`: split the flag
value on `:`, require at least a name and a path, expand a leading `~`
against the home directory, make the path absolute, and read element
index 2 — when present and equal to `"ro"` — as the read-only marker.
No tag is ever set and the mount name is not validated. -/
def parseDirectoryMount (os : OsEnv) (dir : String) :
    Except String Tart.DirectoryMount :=
  match splitChar ':' dir.data with
  | nameChars :: pathChars :: rest =>
    let name := String.mk nameChars
    let path0 := String.mk pathChars
    let expanded : Except String String :=
      if pathChars.head? = some '~' then
        match os.userHomeDir with
        | .error e => .error ("failed to get home directory: " ++ e)
        | .ok home => .ok (os.filepathJoin home (String.mk pathChars.tail))
      else
        .ok path0
    match expanded with
    | .error e => .error e
    | .ok path =>
      match os.filepathAbs path with
      | .error e => .error ("failed to get absolute path for " ++ path ++ ": " ++ e)
      | .ok absPath =>
        let readOnly :=
          match rest with
          | third :: _ => third = String.toList "ro"
          | [] => false
        .ok { name := name, path := absPath, tag := "", readOnly := readOnly }
  | _ => .error ("invalid --dir format: " ++ dir ++ " (expected name:path[:ro])")

/-- Embedding of `parseDirectoryMounts(dirs)`: parse each flag value in order,
stopping at the first malformed one; duplicate names pass through
undetected. -/
def parseDirectoryMounts (os : OsEnv) :
    List String → Except String (List Tart.DirectoryMount)
  | [] => .ok []
  | dir :: dirs =>
    match parseDirectoryMount os dir with
    | .error e => .error e
    | .ok m =>
      match parseDirectoryMounts os dirs with
      | .error e => .error e
      | .ok ms => .ok (m :: ms)

/-- An operating-system environment in which every path is already
absolute and clean, so `filepath.Abs` is the identity; used for
concrete evaluations. -/
def plainOsEnv : OsEnv :=
  { userHomeDir := .ok "/Users/admin",
    filepathJoin := fun a b => a ++ "/" ++ b,
    filepathAbs := fun p => .ok p }

/-- Whether a list of mounts declares the same name twice. -/
def hasDuplicateName : List Tart.DirectoryMount → Bool
  | [] => false
  | m :: ms => ms.any (fun m2 => m2.name == m.name) || hasDuplicateName ms

end Commands

/-! ## Helper lemmas -/

theorem string_eq_of_data {a b : String} (h : a.data = b.data) : a = b := by
  cases a
  cases b
  exact congrArg String.mk h

theorem data_colon : (":" : String).data = [':'] := rfl

theorem data_ro : ("ro" : String).data = ['r', 'o'] := rfl

theorem data_comma : ("," : String).data = [','] := rfl

theorem data_tagEq : ("tag=" : String).data = ['t', 'a', 'g', '='] := rfl

theorem data_colonRo : (":ro" : String).data = [':', 'r', 'o'] := rfl

theorem data_colonTagEq : (":tag=" : String).data = [':', 't', 'a', 'g', '='] := rfl

theorem data_commaRo : (",ro" : String).data = [',', 'r', 'o'] := rfl

namespace Tart

/-- The source's per-mount serialization agrees with the spec-side
four-case description. -/
theorem dirArgumentValue_eq_spec (dm : DirectoryMount) :
    dirArgumentValue dm = specMountSerialization dm := by
  rcases dm with ⟨name, path, tag, ro⟩
  by_cases htag : tag = "" <;> cases ro <;>
    · apply string_eq_of_data
      simp [dirArgumentValue, specMountSerialization, mountOpts, stringsJoin,
        htag, String.data_append, data_colon, data_ro, data_comma, data_tagEq,
        data_colonRo, data_colonTagEq, data_commaRo]

theorem foldl_dir_args (mounts : List DirectoryMount) :
    ∀ pre : List String,
      mounts.foldl (fun args dm => args ++ ["--dir", dirArgumentValue dm]) pre =
        pre ++ mounts.flatMap (fun dm => ["--dir", dirArgumentValue dm]) := by
  induction mounts with
  | nil => intro pre; simp
  | cons dm rest ih => intro pre; simp [ih, List.append_assoc]

/-- C3: every list of directory mounts passed to `Start` is serialized,
in the caller-supplied order, as one `--dir` argument per mount of the
form `name:hostPath` followed by a colon and a comma-joined options
clause holding `tag=<tag>` when the tag is non-empty and `ro` when the
mount is read-only, with no trailing clause when the tag is empty and
the mount is writable; in particular
`{name:"docs", tag:"t1", readOnly:true}` with host path `/a/b` yields
`--dir docs:/a/b:tag=t1,ro`, and an empty-tag writable mount yields
`--dir name:/a/b`. -/
theorem start_serializes_directory_mounts :
    (∀ (ident : String) (mounts : List DirectoryMount),
      startRunArgs ident mounts =
        ["--no-graphics", "--no-clipboard", "--no-audio"] ++
          mounts.flatMap (fun dm => ["--dir", specMountSerialization dm]) ++
          [ident]) ∧
    startRunArgs "vm1"
        [{ name := "docs", path := "/a/b", tag := "t1", readOnly := true }] =
      ["--no-graphics", "--no-clipboard", "--no-audio",
        "--dir", "docs:/a/b:tag=t1,ro", "vm1"] ∧
    startRunArgs "vm1"
        [{ name := "name", path := "/a/b", tag := "", readOnly := false }] =
      ["--no-graphics", "--no-clipboard", "--no-audio",
        "--dir", "name:/a/b", "vm1"] := by
  refine ⟨fun ident mounts => ?_, by decide, by decide⟩
  rw [startRunArgs, foldl_dir_args]
  have h : mounts.flatMap (fun dm => ["--dir", dirArgumentValue dm]) =
      mounts.flatMap (fun dm => ["--dir", specMountSerialization dm]) := by
    simp [dirArgumentValue_eq_spec]
  rw [h]

/-- C2: control-plane error classification. -/
theorem cmd_error_classification :
    (Cmd ProcResult.notFound =
      ("", "", some (TartError.tartNotFound notFoundMsg))) ∧
    (∀ (exitCode : Nat) (stdout stderr : String), exitCode ≠ 0 →
      Cmd (ProcResult.exited exitCode stdout stderr) =
        (stdout, stderr, some (TartError.tartFailed
          (firstNonEmptyLine [stderr, stdout])))) ∧
    (∀ stderr stdout line,
      (splitChar '\n' stderr.data).find? (fun l => !l.isEmpty) = some line →
      firstNonEmptyLine [stderr, stdout] = String.mk line) ∧
    (∀ stderr stdout,
      (splitChar '\n' stderr.data).find? (fun l => !l.isEmpty) = none →
      firstNonEmptyLine [stderr, stdout] = firstNonEmptyLine [stdout]) ∧
    (Cmd (ProcResult.exited 1 "error: disk full" "") =
      ("error: disk full", "",
        some (TartError.tartFailed "error: disk full"))) := by
  refine ⟨rfl, ?_, ?_, ?_, by decide⟩
  · intro exitCode stdout stderr h
    simp [Cmd, h]
  · intro stderr stdout line h
    simp [firstNonEmptyLine, h]
  · intro stderr stdout h
    simp [firstNonEmptyLine, h]

theorem cmd_error_classification_witness :
    Cmd (ProcResult.exited 2 "out line" "err line") =
      ("out line", "err line", some (TartError.tartFailed "err line")) :=
  cmd_error_classification.2.1 2 "out line" "err line" (by decide)


/-- After any `Stop`, the supervisor goroutine is no longer live. -/
theorem stop_supervisor_inactive (g r : Option TartError) (vm : VMState) :
    (Stop g r vm).1.supervisorActive = false := by
  unfold Stop StopWithContext joinSupervisor
  by_cases h : vm.supervisorActive <;> simp [h]

/-- C4: after a `Stop` followed by a `Delete`, a second `Stop` succeeds
and leaves the handle state unchanged, and both `Stop` and `Delete` are
safe on a handle whose `Start` never ran (they return without error and
without touching the supervisor bookkeeping). -/
theorem stop_idempotent_after_stop_delete :
    (∀ (g1 r1 d g2 r2 : Option TartError) (vm : VMState),
      (Stop g2 r2 (Delete d (Stop g1 r1 vm).1).1).2.2 = none ∧
        (Stop g2 r2 (Delete d (Stop g1 r1 vm).1).1).1 =
          (Delete d (Stop g1 r1 vm).1).1) ∧
    (∀ (g r d : Option TartError) (vm : VMState),
      vm.supervisorActive = false →
        (Stop g r vm).2.2 = none ∧
          (Stop g r vm).1 = { vm with ctxCancelled := true } ∧
          (Delete d vm).1 = vm ∧ (Delete d vm).2.2 = d) := by
  constructor
  · intro g1 r1 d g2 r2 vm
    refine ⟨rfl, ?_⟩
    have h1 : (Delete d (Stop g1 r1 vm).1).1 = (Stop g1 r1 vm).1 := rfl
    have h2 : (Stop g1 r1 vm).1.supervisorActive = false :=
      stop_supervisor_inactive g1 r1 vm
    have h3 : (Stop g1 r1 vm).1.ctxCancelled = true := by
      unfold Stop StopWithContext joinSupervisor
      by_cases h : vm.supervisorActive <;> simp [h]
    rw [h1]
    show (StopWithContext g2 r2 (Stop g1 r1 vm).1).1 = (Stop g1 r1 vm).1
    generalize hW : (Stop g1 r1 vm).1 = w at h2 h3
    rcases w with ⟨i, b, c, sa, e⟩
    simp at h2 h3
    subst h2
    subst h3
    unfold StopWithContext joinSupervisor
    simp
  · intro g r d vm h
    refine ⟨rfl, ?_, rfl, rfl⟩
    show (StopWithContext g r vm).1 = { vm with ctxCancelled := true }
    unfold StopWithContext joinSupervisor
    simp [h]

theorem stop_idempotent_after_stop_delete_witness :
    (Stop none none
      (VMState.mk "chamber-ephemeral-20260101-000000" "seed" false false [])).2.2 =
        none :=
  (stop_idempotent_after_stop_delete.2 none none none
    (VMState.mk "chamber-ephemeral-20260101-000000" "seed" false false []) rfl).1

/-- C5: `Stop` first issues the graceful control-plane stop with a
5-second timeout, then cancels the supervisor context, then joins the
background run task, and only then returns; the graceful stop's error
is discarded (the result never depends on it) and the returned error is
always `nil`. -/
theorem stop_step_order :
    ∀ (g r : Option TartError) (vm : VMState),
      (StopWithContext g r vm).2.1 =
        [VMEvent.tartCmd "stop" ["--timeout", "5", vm.ident],
          VMEvent.cancelRunCtx, VMEvent.waitJoin] ∧
      (StopWithContext g r vm).2.2 = none ∧
      (StopWithContext g r vm).1.supervisorActive = false ∧
      (StopWithContext g r vm).1.ctxCancelled = true ∧
      (∀ g2 : Option TartError, StopWithContext g r vm = StopWithContext g2 r vm) := by
  intro g r vm
  refine ⟨rfl, rfl, ?_, ?_, fun g2 => rfl⟩
  · unfold StopWithContext joinSupervisor
    by_cases h : vm.supervisorActive <;> simp [h]
  · unfold StopWithContext joinSupervisor
    by_cases h : vm.supervisorActive <;> simp [h]

/-- C10: `Stop` and `StopWithContext` always return `nil`, for every
handle state and every environment; consequently `Close` behaves as
the plain composition of `Stop` and `Delete` — its result is exactly
`Delete`'s result and the short-circuit branch never fires. -/
theorem stop_never_fails_close_is_delete :
    ∀ (g r d : Option TartError) (vm : VMState),
      (StopWithContext g r vm).2.2 = none ∧
      (Stop g r vm).2.2 = none ∧
      Close g r d vm =
        ((Delete d (Stop g r vm).1).1,
          (Stop g r vm).2.1 ++ (Delete d (Stop g r vm).1).2.1,
          (Delete d (Stop g r vm).1).2.2) ∧
      (Close g r d vm).2.2 = d := by
  intro g r d vm
  exact ⟨rfl, rfl, rfl, rfl⟩

end Tart

namespace SSH

theorem runRestore_runRestore (st : Bool × Nat) :
    runRestore (runRestore st) = runRestore st := by
  rcases st with ⟨r, n⟩
  cases r <;> simp [runRestore]

set_option maxHeartbeats 2000000 in
/-- The body either leaves the restore state untouched or applies the
guarded restore exactly once (on the path through the explicit
`restore()` after the copiers are joined). -/
theorem bodyAfterRaw_state (env : TermEnv) (st : Bool × Nat) :
    (bodyAfterRaw env st).2 = st ∨ (bodyAfterRaw env st).2 = runRestore st := by
  unfold bodyAfterRaw
  by_cases h0 : env.panicAt = some 0
  · rw [if_pos h0]
    exact Or.inl rfl
  rw [if_neg h0]
  by_cases h1 : (!env.getSizeOk) = true
  · rw [if_pos h1]
    exact Or.inl rfl
  rw [if_neg h1]
  by_cases h2 : env.panicAt = some 1
  · rw [if_pos h2]
    exact Or.inl rfl
  rw [if_neg h2]
  by_cases h3 : (!env.requestPtyOk) = true
  · rw [if_pos h3]
    exact Or.inl rfl
  rw [if_neg h3]
  by_cases h4 : env.panicAt = some 2
  · rw [if_pos h4]
    exact Or.inl rfl
  rw [if_neg h4]
  by_cases h5 : (!env.stdinPipeOk) = true
  · rw [if_pos h5]
    exact Or.inl rfl
  rw [if_neg h5]
  by_cases h6 : env.panicAt = some 3
  · rw [if_pos h6]
    exact Or.inl rfl
  rw [if_neg h6]
  by_cases h7 : (!env.stdoutPipeOk) = true
  · rw [if_pos h7]
    exact Or.inl rfl
  rw [if_neg h7]
  by_cases h8 : env.panicAt = some 4
  · rw [if_pos h8]
    exact Or.inl rfl
  rw [if_neg h8]
  by_cases h9 : (!env.stderrPipeOk) = true
  · rw [if_pos h9]
    exact Or.inl rfl
  rw [if_neg h9]
  by_cases h10 : env.panicAt = some 5
  · rw [if_pos h10]
    exact Or.inl rfl
  rw [if_neg h10]
  by_cases h11 : (!env.startOk) = true
  · rw [if_pos h11]
    exact Or.inl rfl
  rw [if_neg h11]
  by_cases h12 : env.panicAt = some 6
  · rw [if_pos h12]
    exact Or.inl rfl
  rw [if_neg h12]
  by_cases h13 : env.panicAt = some 7
  · rw [if_pos h13]
    exact Or.inr rfl
  rw [if_neg h13]
  by_cases h14 : env.waitErr = true
  · rw [if_pos h14]
    exact Or.inr rfl
  rw [if_neg h14]
  exact Or.inr rfl

/-- C1: in every interactive session in which raw mode was entered
(`MakeRaw` succeeded), `term.Restore` executes exactly once — on a
normal return, on an error return after setup (size lookup, PTY
request, pipe creation or command start failing), on a non-zero remote
exit, and on a propagating fault — never twice and never skipped. -/
theorem terminal_restore_exactly_once (env : TermEnv)
    (hSession : env.newSessionOk = true) (hTerm : env.isTerminal = true)
    (hRaw : env.makeRawOk = true) :
    (runInteractiveCommand env).2 = 1 := by
  unfold runInteractiveCommand
  rw [hSession, hTerm, hRaw]
  simp only [Bool.not_true, Bool.false_eq_true, if_false]
  have hst := bodyAfterRaw_state env (false, 0)
  rcases h : bodyAfterRaw env (false, 0) with ⟨ex, st⟩
  rw [h] at hst
  simp at hst
  cases ex <;> rcases hst with rfl | rfl <;>
    simp [runRestore, runRestore_runRestore]

theorem terminal_restore_exactly_once_witness :
    (runInteractiveCommand
      (TermEnv.mk true true true true true true true true true true none)).2 =
        1 :=
  terminal_restore_exactly_once
    (TermEnv.mk true true true true true true true true true true none)
    rfl rfl rfl

end SSH

namespace SSH

/-- Failing attempts with no cancellation just advance the loop: the
retry loop never gives up of its own accord, whatever bound is
explored. -/
theorem retryLoop_no_cap (f c : Nat → Bool) (hf : ∀ j, f j = true)
    (hc : ∀ j, c j = false) : ∀ (fuel n : Nat), retryLoop f c fuel n = none := by
  intro fuel
  induction fuel with
  | zero => intro n; rfl
  | succ fuel ih =>
    intro n
    simp [retryLoop, hf n, hc n, ih]

/-- The loop returns the first successful attempt, having run every
earlier (failing) attempt. -/
theorem retryLoop_first_success (f c : Nat → Bool) :
    ∀ (fuel n k : Nat), n ≤ k → (∀ j, n ≤ j → j < k → f j = true) →
      f k = false → (∀ j, n ≤ j → j < k → c j = false) →
      k < n + fuel → retryLoop f c fuel n = some (Except.ok k) := by
  intro fuel
  induction fuel with
  | zero => intro n k hnk _ _ _ hlt; omega
  | succ fuel ih =>
    intro n k hnk hfail hk hc hlt
    rcases Nat.eq_or_lt_of_le hnk with rfl | hnk2
    · simp [retryLoop, hk]
    · have hfn : f n = true := hfail n (Nat.le_refl n) hnk2
      have hcn : c n = false := hc n (Nat.le_refl n) hnk2
      simp only [retryLoop, hfn, hcn, Bool.not_true, Bool.false_eq_true,
        if_false]
      exact ih (n + 1) k hnk2 (fun j h1 h2 => hfail j (by omega) h2) hk
        (fun j h1 h2 => hc j (by omega) h2) (by omega)

/-- When the outer context is observed cancelled during the delay after
failing attempt `k` (and no earlier), the loop stops there with the
context error. -/
theorem retryLoop_cancelled (f c : Nat → Bool) :
    ∀ (fuel n k : Nat), n ≤ k → (∀ j, n ≤ j → j ≤ k → f j = true) →
      (∀ j, n ≤ j → j < k → c j = false) → c k = true →
      k < n + fuel → retryLoop f c fuel n = some (Except.error "context canceled") := by
  intro fuel
  induction fuel with
  | zero => intro n k hnk _ _ _ hlt; omega
  | succ fuel ih =>
    intro n k hnk hfail hc hck hlt
    rcases Nat.eq_or_lt_of_le hnk with rfl | hnk2
    · simp [retryLoop, hfail n (Nat.le_refl n) (Nat.le_refl n), hck]
    · have hfn : f n = true := hfail n (Nat.le_refl n) (by omega)
      have hcn : c n = false := hc n (Nat.le_refl n) hnk2
      simp only [retryLoop, hfn, hcn, Bool.not_true, Bool.false_eq_true,
        if_false]
      exact ih (n + 1) k hnk2 (fun j h1 h2 => hfail j (by omega) h2)
        (fun j h1 h2 => hc j (by omega) h2) hck (by omega)

/-- C6: the connection waiter retries without an attempt cap, with a
fixed one-second delay between attempts, a one-second child deadline
for each TCP dial and a one-second transport-handshake budget; the
first successful attempt returns the connection immediately, and
cancellation of the caller's outer context is the only other way the
loop ends, returning a wrapped cancellation error. -/
theorem waitForSSH_retry_policy :
    retryAttemptCap = none ∧
    retryDelaySeconds = 1 ∧
    dialTimeoutSeconds = 1 ∧
    handshakeTimeoutSeconds = 1 ∧
    (∀ (f c : Nat → Bool) (fuel : Nat), (∀ j, f j = true) →
      (∀ j, c j = false) → waitForSSH f c fuel = none) ∧
    (∀ (f c : Nat → Bool) (fuel k : Nat), (∀ j, j < k → f j = true) →
      f k = false → (∀ j, j < k → c j = false) → k < fuel →
      waitForSSH f c fuel = some (Except.ok k)) ∧
    (∀ (f c : Nat → Bool) (fuel k : Nat), (∀ j, j ≤ k → f j = true) →
      (∀ j, j < k → c j = false) → c k = true → k < fuel →
      waitForSSH f c fuel =
        some (Except.error "failed to connect via SSH: context canceled")) := by
  refine ⟨rfl, rfl, rfl, rfl, ?_, ?_, ?_⟩
  · intro f c fuel hf hc
    simp [waitForSSH, retryLoop_no_cap f c hf hc]
  · intro f c fuel k hfail hk hc hlt
    have h := retryLoop_first_success f c fuel 0 k (Nat.zero_le k)
      (fun j _ h2 => hfail j h2) hk (fun j _ h2 => hc j h2) (by omega)
    simp [waitForSSH, h]
  · intro f c fuel k hfail hc hck hlt
    have h := retryLoop_cancelled f c fuel 0 k (Nat.zero_le k)
      (fun j _ h2 => hfail j h2) (fun j _ h2 => hc j h2) hck (by omega)
    simp [waitForSSH, h]

theorem waitForSSH_retry_policy_witness :
    waitForSSH (fun j => decide (j < 3)) (fun _ => false) 10 =
      some (Except.ok 3) :=
  waitForSSH_retry_policy.2.2.2.2.2.1 (fun j => decide (j < 3))
    (fun _ => false) 10 3 (fun j hj => by simp [hj]) (by simp)
    (fun j _ => rfl) (by omega)

end SSH

namespace SSH

set_option maxRecDepth 4096 in
/-- Every interleaving step preserves the teardown invariant. -/
theorem proxyInv_step : ∀ (s : ProxyState) (a : PAction),
    proxyInv s = true → proxyInv (proxyStep s a) = true := by decide

/-- The teardown invariant holds along every schedule. -/
theorem proxyInv_foldl (acts : List PAction) :
    ∀ s : ProxyState, proxyInv s = true →
      proxyInv (acts.foldl proxyStep s) = true := by
  induction acts with
  | nil => intro s h; exact h
  | cons a rest ih => intro s h; exact ih (proxyStep s a) (proxyInv_step s a h)

/-- C7 (counterexample): the claim as stated is false on this model of
the code: along the schedule where the remote command exits, a
window-change signal arrives, and the watcher's select takes the signal
branch before the main task has reached `cancel()`, a resize is
forwarded after the command exited; and along the normal teardown
schedule the main task reaches restoration while the watcher — which is
cancelled but never joined — is still running. -/
theorem teardown_claim_counterexample : ¬ interactiveTeardownClaim := by
  intro h
  have h2 :=
    (h [PAction.cmdExit, PAction.sigwinch, PAction.watcherForward]).2.1
  exact absurd h2 (by decide)

/-- C7 (amended): the shared scope is cancelled only after the remote
command's completion has been observed; terminal restoration happens
only after the scope was cancelled and the three stream copiers were
joined; and the resize watcher stops only by observing the
cancellation — but it is merely cancelled, not joined, so a pending
resize may still be forwarded in the window between the command's exit
and the watcher's observation of the cancellation. -/
theorem teardown_ordering (acts : List PAction) :
    ((runProxy acts).cancelled = true → (runProxy acts).commandExited = true) ∧
    ((runProxy acts).mainPC = MainPC.done →
      (runProxy acts).copiersDone = true ∧ (runProxy acts).cancelled = true) ∧
    ((runProxy acts).watcherAlive = false → (runProxy acts).cancelled = true) := by
  have h : proxyInv (runProxy acts) = true :=
    proxyInv_foldl acts proxyStart (by decide)
  revert h
  generalize runProxy acts = s
  rcases s with ⟨ce, ca, cd, pc, wa, ps, fw⟩
  revert ce ca cd wa ps fw
  cases pc <;> decide

theorem teardown_ordering_witness :
    (runProxy [PAction.cmdExit, PAction.mainWaitRet, PAction.mainCancel,
        PAction.copiersFinish, PAction.mainJoin, PAction.mainRestore,
        PAction.watcherObserveCancel]).commandExited = true ∧
    (runProxy [PAction.cmdExit, PAction.mainWaitRet, PAction.mainCancel,
        PAction.copiersFinish, PAction.mainJoin, PAction.mainRestore,
        PAction.watcherObserveCancel]).copiersDone = true := by
  have h := teardown_ordering [PAction.cmdExit, PAction.mainWaitRet,
    PAction.mainCancel, PAction.copiersFinish, PAction.mainJoin,
    PAction.mainRestore, PAction.watcherObserveCancel]
  exact ⟨h.1 (by decide), (h.2.1 (by decide)).1⟩

end SSH

namespace Commands

/-- C8: evaluating the parser at the failing input: two `--dir` values
declaring the same mount name are both accepted — no duplicate-name
configuration error is raised (the repository's own test expects an
error containing "duplicate mount name" here). -/
theorem parse_accepts_duplicate_mount_names :
    parseDirectoryMounts plainOsEnv ["data:/path1", "data:/path2"] =
      Except.ok [Tart.DirectoryMount.mk "data" "/path1" "" false,
        Tart.DirectoryMount.mk "data" "/path2" "" false] ∧
    hasDuplicateName [Tart.DirectoryMount.mk "data" "/path1" "" false,
      Tart.DirectoryMount.mk "data" "/path2" "" false] = true := by
  constructor
  · rfl
  · decide

end Commands

namespace Tart

theorem digitChar_toNat (d : Nat) (hd : d < 10) :
    (Nat.digitChar d).toNat = d + 48 := by
  interval_cases d <;> rfl

theorem unformat_format (t : GoTime) (h : validTime t) :
    unformatTS (formatTimestamp t).data = secondTuple t := by
  obtain ⟨hy, hmo, hd, hh, hmi, hs⟩ := h
  show unformatTS (pad4 t.year ++ pad2 t.month ++ pad2 t.day ++ ['-'] ++
    pad2 t.hour ++ pad2 t.minute ++ pad2 t.second) = secondTuple t
  simp only [pad4, pad2, List.cons_append, List.nil_append]
  simp only [unformatTS, digitVal]
  rw [digitChar_toNat (t.year / 1000 % 10) (by omega),
    digitChar_toNat (t.year / 100 % 10) (by omega),
    digitChar_toNat (t.year / 10 % 10) (by omega),
    digitChar_toNat (t.year % 10) (by omega),
    digitChar_toNat (t.month / 10 % 10) (by omega),
    digitChar_toNat (t.month % 10) (by omega),
    digitChar_toNat (t.day / 10 % 10) (by omega),
    digitChar_toNat (t.day % 10) (by omega),
    digitChar_toNat (t.hour / 10 % 10) (by omega),
    digitChar_toNat (t.hour % 10) (by omega),
    digitChar_toNat (t.minute / 10 % 10) (by omega),
    digitChar_toNat (t.minute % 10) (by omega),
    digitChar_toNat (t.second / 10 % 10) (by omega),
    digitChar_toNat (t.second % 10) (by omega)]
  simp only [secondTuple, Prod.mk.injEq]
  refine ⟨by omega, by omega, by omega, by omega, by omega, by omega⟩

/-- The second-resolution layout is injective on instants with
in-range calendar fields. -/
theorem formatTimestamp_inj (t1 t2 : GoTime) (h1 : validTime t1)
    (h2 : validTime t2)
    (h : formatTimestamp t1 = formatTimestamp t2) :
    secondTuple t1 = secondTuple t2 := by
  have h3 := congrArg (fun s => unformatTS s.data) h
  simp only at h3
  rw [unformat_format t1 h1, unformat_format t2 h2] at h3
  exact h3

/-- The fixed stem cancels on the left of an identity comparison. -/
theorem newVMIdent_inj (t1 t2 : GoTime) (h1 : validTime t1)
    (h2 : validTime t2) (h : newVMIdent t1 = newVMIdent t2) :
    secondTuple t1 = secondTuple t2 := by
  apply formatTimestamp_inj t1 t2 h1 h2
  have hd := congrArg String.data h
  simp only [newVMIdent, String.data_append] at hd
  exact string_eq_of_data (List.append_cancel_left hd)

/-- C9 (counterexample): the creation timestamp has second resolution,
so two handles created at distinct instants within the same second —
here half a second apart — receive the same identity string; identities
are not unique per instance. -/
theorem vm_identity_collision :
    GoTime.mk 2026 10 11 12 0 0 0 ≠ GoTime.mk 2026 10 11 12 0 0 500000000 ∧
    newVMIdent (GoTime.mk 2026 10 11 12 0 0 0) =
      newVMIdent (GoTime.mk 2026 10 11 12 0 0 500000000) ∧
    ((NewVMClonedFrom (GoTime.mk 2026 10 11 12 0 0 0) none "img").1.map
        VMState.ident =
      (NewVMClonedFrom (GoTime.mk 2026 10 11 12 0 0 500000000) none
        "img").1.map VMState.ident) := by
  refine ⟨by decide, by decide, by decide⟩

/-- C9 (amended): every cloned handle's identity is the fixed stem
followed by the creation timestamp; no lifecycle operation ever mutates
it; and identities are distinct exactly down to second resolution:
handles whose creation instants differ in their second-resolution
calendar fields get distinct identities (while instants within the same
second collide). -/
theorem vm_identity_characterization :
    (∀ (now : GoTime) (cloneErr : Option TartError) (src : String)
        (vm : VMState),
      (NewVMClonedFrom now cloneErr src).1 = some vm →
        vm.ident = vmNameStem ++ formatTimestamp now) ∧
    (∀ (mac cpuE memE : Option TartError) (cpu mem : Nat) (vm : VMState),
      (Configure mac cpuE memE cpu mem vm).1.ident = vm.ident) ∧
    (∀ vm : VMState, (Start vm).ident = vm.ident) ∧
    (∀ (g r : Option TartError) (vm : VMState),
      (StopWithContext g r vm).1.ident = vm.ident) ∧
    (∀ (d : Option TartError) (vm : VMState),
      (Delete d vm).1.ident = vm.ident) ∧
    (∀ (g r d : Option TartError) (vm : VMState),
      (Close g r d vm).1.ident = vm.ident) ∧
    (∀ t1 t2 : GoTime, validTime t1 → validTime t2 →
      secondTuple t1 ≠ secondTuple t2 → newVMIdent t1 ≠ newVMIdent t2) := by
  refine ⟨?_, ?_, fun vm => rfl, ?_, fun d vm => rfl, ?_, ?_⟩
  · intro now cloneErr src vm h
    cases cloneErr with
    | none =>
      simp only [NewVMClonedFrom, Option.some.injEq] at h
      subst h
      rfl
    | some e => simp [NewVMClonedFrom] at h
  · intro mac cpuE memE cpu mem vm
    unfold Configure
    rcases mac with _ | e1
    · rcases cpuE with _ | e2 <;> split_ifs <;> rfl
    · rfl
  · intro g r vm
    unfold StopWithContext joinSupervisor
    by_cases h : vm.supervisorActive <;> simp [h]
  · intro g r d vm
    show (Delete d (Stop g r vm).1).1.ident = vm.ident
    show (Stop g r vm).1.ident = vm.ident
    unfold Stop StopWithContext joinSupervisor
    by_cases h : vm.supervisorActive <;> simp [h]
  · intro t1 t2 h1 h2 hne h
    exact hne (newVMIdent_inj t1 t2 h1 h2 h)

theorem vm_identity_characterization_witness :
    newVMIdent (GoTime.mk 2026 1 2 3 4 5 0) ≠
      newVMIdent (GoTime.mk 2026 1 2 3 4 6 0) :=
  vm_identity_characterization.2.2.2.2.2.2 (GoTime.mk 2026 1 2 3 4 5 0)
    (GoTime.mk 2026 1 2 3 4 6 0)
    ⟨by decide, by decide, by decide, by decide, by decide, by decide⟩
    ⟨by decide, by decide, by decide, by decide, by decide, by decide⟩
    (by decide)

end Tart

end Chamber
